import Mathlib

/-!
Verification of the request/response mapping layer of a small HTTP gateway
(`src/server.js`).  The gateway exposes three operations — chat with a primary
model, chat with a reasoning model, image generation — each of which builds a
request for a remote inference provider, awaits its outcome, shapes the
response and replies.  The remote provider is modelled as an oracle function
from the request the code builds to the outcome the provider returns; each
operation returns the list of provider calls it issued together with its reply,
so that "no remote call is attempted" is the statement that the list is empty.
Strings and the `<think>` extraction regex are modelled over `List Char`.
-/

/-- Together-provider model identifiers (`AI_MODEL` in `server.js`). -/
def AI_MODEL.LLAMA : String := "meta-llama/Llama-3.3-70B-Instruct-Turbo-Free"

/-- DeepSeek reasoning-chat model identifier. -/
def AI_MODEL.DEEPSEEK : String := "deepseek-ai/DeepSeek-R1-Distill-Llama-70B-free"

/-- Safety-filter model identifier. -/
def AI_MODEL.GUARD : String := "meta-llama/Meta-Llama-Guard-3-8B"

/-- Image-generation model identifier. -/
def AI_MODEL.FLUX : String := "black-forest-labs/FLUX.1-schnell-Free"

/-- Fixed image-generation parameters (`IMAGE_CONFIG` in `server.js`). -/
structure ImageConfig where
  width : Nat
  height : Nat
  n : Nat
deriving DecidableEq

def IMAGE_CONFIG : ImageConfig := { width := 1024, height := 1024, n := 1 }

/-- Default chat system message (the literal in `server.js`, used when the
`CHAT_SYSTEM_MESSAGE` environment variable is absent). -/
def defaultChatSystemMessage : String :=
  "마크다운을 사용하지 말고, 한국어만 사용하고 한국어 글자만 사용해. 혹시라도 영어로 답변하면 다시 한번 한국어와 한글을 사용하는지 확인하고, 그렇지 않다면 삭제해."

/-- `process.env.CHAT_SYSTEM_MESSAGE ?? default` — the configured system
message: the environment override when set, the default literal otherwise. -/
def CHAT_SYSTEM_MESSAGE (env : Option String) : String :=
  env.getD defaultChatSystemMessage

/-- Message of the thrown `Error('프롬프트가 필요합니다!')` (missing prompt). -/
def invalidPromptMsg : String := "프롬프트가 필요합니다!"

/-- Fixed generic message substituted for any chat upstream failure. -/
def chatErrorMsg : String := "AI 모델 호출 중 오류가 발생했습니다."

/-- Message of the 400 reply when the `<think>` tags are not found. -/
def formatErrorMsg : String := "AI 모델 응답 형식이 잘못되었습니다."

/-- Message of the thrown `Error('Not implemented')` (unsupported model). -/
def notImplementedMsg : String := "Not implemented"

/-- Message of the TypeError thrown by `result.data[0].url` when the provider
returns an empty data array. -/
def emptyImageDataMsg : String := "Cannot read properties of undefined (reading 'url')"

/-- `getStepsFromModel` in `server.js`: switch on the model, 4 for FLUX,
otherwise `throw new Error('Not implemented')`. -/
def getStepsFromModel (model : String) : Except String Nat :=
  if model = AI_MODEL.FLUX then Except.ok 4 else Except.error notImplementedMsg

/-- One entry of the `messages` array of a chat-completion request. -/
structure Message where
  role : String
  content : String
deriving DecidableEq

/-- The request body `together.chat.completions.create` is called with. -/
structure ChatCall where
  model : String
  safety_model : String
  messages : List Message
deriving DecidableEq

/-- The request body `together.images.create` is called with.  `prompt` is
`Option String` because the route passes `req.body.prompt` through unchecked
(it may be absent). -/
structure ImageCall where
  model : String
  prompt : Option String
  width : Nat
  height : Nat
  n : Nat
  steps : Nat
deriving DecidableEq

/-- The remote chat provider: from the request the code builds, either a thrown
error (with its message) or the list of completion-choice contents. -/
def ChatOracle : Type := ChatCall → Except String (List String)

/-- The remote image provider: either a thrown error or the list of image URLs
in `result.data`. -/
def ImageOracle : Type := ImageCall → Except String (List String)

/-- JavaScript falsiness of `req.body.prompt` restricted to string-or-absent
values: `!prompt` is true exactly for `undefined` and `""`. -/
def promptFalsy : Option String → Bool
  | none => true
  | some s => s.isEmpty

/-- `chatWithModel` in `server.js`.  Returns the provider calls issued and the
outcome: throws on falsy prompt before any call; otherwise issues one call with
the safety model, a system message and the user prompt; any provider error —
including the out-of-bounds access when `choices` is empty — is caught and
replaced by the fixed generic message. -/
def chatWithModel (env : Option String) (oracle : ChatOracle) (model : String)
    (prompt : Option String) : List ChatCall × Except String String :=
  if promptFalsy prompt then
    ([], Except.error invalidPromptMsg)
  else
    let call : ChatCall :=
      { model := model
        safety_model := AI_MODEL.GUARD
        messages := [ { role := "system", content := CHAT_SYSTEM_MESSAGE env },
                      { role := "user", content := prompt.getD "" } ] }
    match oracle call with
    | Except.error _ => ([call], Except.error chatErrorMsg)
    | Except.ok [] => ([call], Except.error chatErrorMsg)
    | Except.ok (c :: _) => ([call], Except.ok c)

/-- `createImage` in `server.js`: resolves the step count (throwing before any
call for an unsupported model), issues one generation call with the fixed
config, and returns the first URL; an empty `data` array throws a TypeError. -/
def createImage (oracle : ImageOracle) (model : String) (prompt : Option String) :
    List ImageCall × Except String String :=
  match getStepsFromModel model with
  | Except.error m => ([], Except.error m)
  | Except.ok steps =>
    let call : ImageCall :=
      { model := model, prompt := prompt, width := IMAGE_CONFIG.width
        height := IMAGE_CONFIG.height, n := IMAGE_CONFIG.n, steps := steps }
    match oracle call with
    | Except.error m => ([call], Except.error m)
    | Except.ok [] => ([call], Except.error emptyImageDataMsg)
    | Except.ok (u :: _) => ([call], Except.ok u)

/-- The characters of the literal `<think>` start tag of the regex. -/
def startTag : List Char := ['<', 't', 'h', 'i', 'n', 'k', '>']

/-- The characters of the literal `</think>` end tag of the regex. -/
def endTag : List Char := ['<', '/', 't', 'h', 'i', 'n', 'k', '>']

/-- Index of the first occurrence of `pat` as a contiguous substring of `s`
(`none` when there is no occurrence). -/
def indexOfSub (pat : List Char) : List Char → Option Nat
  | [] => if pat.isPrefixOf ([] : List Char) then some 0 else none
  | c :: rest =>
    if pat.isPrefixOf (c :: rest) then some 0
    else (indexOfSub pat rest).map (· + 1)

/-- `answer.match(/<think>(.*?)<\think>(.*)/s)` (with the end tag escaped in
the source): the leftmost position where `<think>` is followed, at least its
own length later, by `</think>`; group 1 is the non-greedy inner segment up to
the first subsequent `</think>`, group 2 everything after it.  Returns the two
raw (untrimmed) groups, or `none` when the pattern does not match. -/
def extractThink (answer : String) : Option (String × String) :=
  (indexOfSub startTag answer.data).bind fun i =>
    let rest := answer.data.drop (i + startTag.length)
    (indexOfSub endTag rest).map fun j =>
      (⟨rest.take j⟩, ⟨rest.drop (j + endTag.length)⟩)

/-- JavaScript `String.prototype.trim`: remove leading and trailing
whitespace. -/
def jsTrim (s : String) : String :=
  ⟨((s.data.dropWhile Char.isWhitespace).reverse.dropWhile Char.isWhitespace).reverse⟩

/-- The body of a route's JSON reply. -/
inductive RBody
  | answer (a : String)
  | thinkSay (think say : String)
  | result (url : String)
  | error (msg : String)
deriving DecidableEq

/-- A route's reply: HTTP status and JSON body. -/
structure Reply where
  status : Nat
  body : RBody
deriving DecidableEq

/-- The `POST /llama` handler. -/
def llamaRoute (env : Option String) (oracle : ChatOracle) (prompt : Option String) :
    List ChatCall × Reply :=
  match chatWithModel env oracle AI_MODEL.LLAMA prompt with
  | (calls, Except.ok answer) => (calls, ⟨200, RBody.answer answer⟩)
  | (calls, Except.error m) => (calls, ⟨500, RBody.error m⟩)

/-- The `POST /deepseek` handler: chat, then extract the `<think>` groups and
trim them; a non-match is a 400 reply, a chat failure a 500 reply. -/
def deepseekRoute (env : Option String) (oracle : ChatOracle) (prompt : Option String) :
    List ChatCall × Reply :=
  match chatWithModel env oracle AI_MODEL.DEEPSEEK prompt with
  | (calls, Except.error m) => (calls, ⟨500, RBody.error m⟩)
  | (calls, Except.ok answer) =>
    match extractThink answer with
    | some (rawThink, rawSay) =>
      (calls, ⟨200, RBody.thinkSay (jsTrim rawThink) (jsTrim rawSay)⟩)
    | none => (calls, ⟨400, RBody.error formatErrorMsg⟩)

/-- The `POST /flux` handler. -/
def fluxRoute (oracle : ImageOracle) (prompt : Option String) :
    List ImageCall × Reply :=
  match createImage oracle AI_MODEL.FLUX prompt with
  | (calls, Except.ok url) => (calls, ⟨200, RBody.result url⟩)
  | (calls, Except.error m) => (calls, ⟨500, RBody.error m⟩)

/-- `pat` occurs as a contiguous substring of `s` starting at index `i`. -/
abbrev occursAt (pat s : List Char) (i : Nat) : Prop :=
  pat.isPrefixOf (s.drop i) = true

/-- `pat` occurs somewhere in `s` as a contiguous substring. -/
abbrev occursIn (pat s : List Char) : Prop :=
  ∃ i, occursAt pat s i

/-- The HTTP client-error status class. -/
abbrev clientErrorClass (status : Nat) : Prop := 400 ≤ status ∧ status ≤ 499

/-- Unfolding equation of `indexOfSub` when the pattern starts right here. -/
theorem indexOfSub_cons_pos {pat : List Char} {c : Char} {rest : List Char}
    (hp : pat.isPrefixOf (c :: rest) = true) :
    indexOfSub pat (c :: rest) = some 0 := by
  simp [indexOfSub, hp]

/-- Unfolding equation of `indexOfSub` when the pattern does not start here. -/
theorem indexOfSub_cons_neg {pat : List Char} {c : Char} {rest : List Char}
    (hp : pat.isPrefixOf (c :: rest) = false) :
    indexOfSub pat (c :: rest) = (indexOfSub pat rest).map (· + 1) := by
  simp [indexOfSub, hp]

/-- `indexOfSub` finds an index exactly when the pattern occurs somewhere. -/
theorem indexOfSub_isSome_iff (pat s : List Char) :
    (indexOfSub pat s).isSome = true ↔ ∃ i, pat.isPrefixOf (s.drop i) = true := by
  induction s with
  | nil =>
    by_cases hp : pat.isPrefixOf ([] : List Char) = true
    · simp [indexOfSub, hp]
    · simp [indexOfSub, hp]
  | cons c rest ih =>
    by_cases hp : pat.isPrefixOf (c :: rest) = true
    · rw [indexOfSub_cons_pos hp]
      simp only [Option.isSome_some, true_iff]
      exact ⟨0, by simpa using hp⟩
    · rw [indexOfSub_cons_neg (Bool.eq_false_iff.mpr hp)]
      rw [Option.isSome_map']
      rw [ih]
      constructor
      · rintro ⟨i, hi⟩
        exact ⟨i + 1, by simpa [List.drop_succ_cons] using hi⟩
      · rintro ⟨i, hi⟩
        match i with
        | 0 => exact absurd (by simpa using hi) hp
        | j + 1 => exact ⟨j, by simpa [List.drop_succ_cons] using hi⟩

/-- The index `indexOfSub` returns is an occurrence of the pattern. -/
theorem indexOfSub_eq_some (pat : List Char) :
    ∀ (s : List Char) (i : Nat), indexOfSub pat s = some i →
      pat.isPrefixOf (s.drop i) = true := by
  intro s
  induction s with
  | nil =>
    intro i h
    by_cases hp : pat.isPrefixOf ([] : List Char) = true
    · simp only [indexOfSub, hp, if_true, Option.some.injEq] at h
      subst h
      simpa using hp
    · simp [indexOfSub, hp] at h
  | cons c rest ih =>
    intro i h
    by_cases hp : pat.isPrefixOf (c :: rest) = true
    · simp only [indexOfSub, hp, if_true, Option.some.injEq] at h
      subst h
      simpa using hp
    · rw [indexOfSub_cons_neg (Bool.eq_false_iff.mpr hp)] at h
      rw [Option.map_eq_some'] at h
      obtain ⟨j, hj, rfl⟩ := h
      rw [List.drop_succ_cons]
      exact ih j hj

/-- The index `indexOfSub` returns is the first occurrence. -/
theorem indexOfSub_min (pat : List Char) :
    ∀ (s : List Char) (i : Nat), indexOfSub pat s = some i →
      ∀ k, k < i → pat.isPrefixOf (s.drop k) = false := by
  intro s
  induction s with
  | nil =>
    intro i h k hk
    by_cases hp : pat.isPrefixOf ([] : List Char) = true
    · simp only [indexOfSub, hp, if_true, Option.some.injEq] at h
      omega
    · simp [indexOfSub, hp] at h
  | cons c rest ih =>
    intro i h k hk
    by_cases hp : pat.isPrefixOf (c :: rest) = true
    · simp only [indexOfSub, hp, if_true, Option.some.injEq] at h
      omega
    · rw [indexOfSub_cons_neg (Bool.eq_false_iff.mpr hp)] at h
      rw [Option.map_eq_some'] at h
      obtain ⟨j, hj, rfl⟩ := h
      match k with
      | 0 =>
        rw [List.drop_zero]
        exact Bool.eq_false_iff.mpr hp
      | k' + 1 =>
        rw [List.drop_succ_cons]
        exact ih j hj k' (by omega)

/-- A prefix of an append that fits inside the left part is a prefix of it. -/
theorem prefix_of_prefix_append {p l m : List Char}
    (h : p.isPrefixOf (l ++ m) = true) (hlen : p.length ≤ l.length) :
    p.isPrefixOf l = true := by
  rw [List.isPrefixOf_iff_prefix] at h ⊢
  rw [List.prefix_iff_eq_take, List.take_append_of_le_length hlen] at h
  rw [h]
  exact List.take_prefix _ _

/-- A nonempty pattern is found at index 0 of `pat ++ t`. -/
theorem indexOfSub_self_append (pat t : List Char) (hpat : pat ≠ []) :
    indexOfSub pat (pat ++ t) = some 0 := by
  cases pat with
  | nil => exact absurd rfl hpat
  | cons c cs =>
    have hp : (c :: cs).isPrefixOf ((c :: cs) ++ t) = true := by
      rw [List.isPrefixOf_iff_prefix]
      exact List.prefix_append _ _
    rw [List.cons_append]
    rw [List.cons_append] at hp
    simp [indexOfSub, hp]

/-- `</think>` has no nontrivial self-overlap: it cannot begin strictly inside
a copy of itself preceded by a short nonempty block. -/
theorem endTag_no_middle_prefix (suf t : List Char) (h0 : suf ≠ [])
    (h8 : suf.length < endTag.length)
    (h : endTag.isPrefixOf (suf ++ (endTag ++ t)) = true) : False := by
  rw [List.isPrefixOf_iff_prefix] at h
  obtain ⟨r, hr⟩ := h
  have hd : (endTag ++ r)[suf.length]? = (suf ++ (endTag ++ t))[suf.length]? := by
    rw [hr]
  rw [List.getElem?_append_left h8] at hd
  rw [List.getElem?_append_right (Nat.le_refl _)] at hd
  simp only [Nat.sub_self] at hd
  have hzero : (endTag ++ t)[0]? = some '<' := rfl
  rw [hzero] at hd
  have h1 : 1 ≤ suf.length := List.length_pos.mpr h0
  have h8' : suf.length < 8 := by simpa [endTag] using h8
  set d := suf.length with hdd
  interval_cases d <;> exact absurd hd (by decide)

/-- If the pattern `</think>` does not occur in `inner`, its first occurrence
in `inner ++ </think> ++ t` is exactly at the boundary `inner.length`. -/
theorem indexOfSub_boundary (t : List Char) :
    ∀ (inner : List Char), indexOfSub endTag inner = none →
      indexOfSub endTag (inner ++ (endTag ++ t)) = some inner.length := by
  intro inner
  induction inner with
  | nil =>
    intro _
    simpa using indexOfSub_self_append endTag t (by decide)
  | cons c rest ih =>
    intro hin
    have hp : endTag.isPrefixOf (c :: rest) = false := by
      by_cases h : endTag.isPrefixOf (c :: rest) = true
      · rw [indexOfSub_cons_pos h] at hin
        simp at hin
      · exact Bool.eq_false_iff.mpr h
    have hrest : indexOfSub endTag rest = none := by
      rw [indexOfSub_cons_neg hp] at hin
      rw [Option.map_eq_none'] at hin
      exact hin
    have hnp : endTag.isPrefixOf ((c :: rest) ++ (endTag ++ t)) = false := by
      by_cases hcase : (c :: rest).length < endTag.length
      · by_contra hcon
        exact endTag_no_middle_prefix (c :: rest) t (by simp) hcase (by simpa using hcon)
      · by_contra hcon
        have hT := prefix_of_prefix_append (p := endTag) (l := c :: rest)
          (m := endTag ++ t) (by simpa using hcon) (Nat.le_of_not_lt hcase)
        simp [hT] at hp
    rw [List.cons_append]
    rw [List.cons_append] at hnp
    rw [indexOfSub_cons_neg hnp, ih hrest]
    simp

example : extractThink "<think> step one </think>  final answer " =
    some (" step one ", "  final answer ") := by decide

example : jsTrim " step one " = "step one" := by decide

example : extractThink "x<think>a</think>b" = some ("a", "b") := by decide

example : extractThink "no tags here" = none := by decide

/-- The characters of the `<think>` string literal are `startTag`. -/
theorem thinkOpen_data : "<think>".data = startTag := rfl

/-- The characters of the `</think>` string literal are `endTag`. -/
theorem thinkClose_data : "</think>".data = endTag := rfl

/-- A falsy (missing or empty) prompt makes `chatWithModel` throw the
invalid-prompt error without issuing any provider call. -/
theorem chatWithModel_falsy (env : Option String) (oracle : ChatOracle)
    (model : String) (prompt : Option String) (hp : promptFalsy prompt = true) :
    chatWithModel env oracle model prompt = ([], Except.error invalidPromptMsg) := by
  simp [chatWithModel, hp]

/-- With a non-falsy prompt, `chatWithModel` issues exactly one provider call,
carrying the guard safety model and the two-message conversation. -/
theorem chatWithModel_calls (env : Option String) (oracle : ChatOracle)
    (model : String) (prompt : Option String) (hp : promptFalsy prompt = false) :
    (chatWithModel env oracle model prompt).1 =
      [⟨model, AI_MODEL.GUARD,
        [⟨"system", CHAT_SYSTEM_MESSAGE env⟩, ⟨"user", prompt.getD ""⟩]⟩] := by
  rcases hc : oracle ⟨model, AI_MODEL.GUARD,
      [⟨"system", CHAT_SYSTEM_MESSAGE env⟩, ⟨"user", prompt.getD ""⟩]⟩ with msg | choices
  · simp [chatWithModel, hp, hc]
  · rcases choices with _ | ⟨c, cs⟩ <;> simp [chatWithModel, hp, hc]

/-- With a non-falsy prompt and a provider returning at least one choice,
`chatWithModel` returns the first choice's content. -/
theorem chatWithModel_oracle_ok (env : Option String) (model : String)
    (prompt : Option String) (answer : String) (others : List String)
    (hp : promptFalsy prompt = false) :
    (chatWithModel env (fun _ => Except.ok (answer :: others)) model prompt).2 =
      Except.ok answer := by
  simp [chatWithModel, hp]

/-- A provider error is replaced by the fixed generic chat error message. -/
theorem chatWithModel_oracle_err (env : Option String) (model : String)
    (prompt : Option String) (msg : String) (hp : promptFalsy prompt = false) :
    (chatWithModel env (fun _ => Except.error msg) model prompt).2 =
      Except.error chatErrorMsg := by
  simp [chatWithModel, hp]

/-- An empty choice list is caught and replaced by the generic message too. -/
theorem chatWithModel_oracle_empty (env : Option String) (model : String)
    (prompt : Option String) (hp : promptFalsy prompt = false) :
    (chatWithModel env (fun _ => Except.ok []) model prompt).2 =
      Except.error chatErrorMsg := by
  simp [chatWithModel, hp]

/-- An unsupported model makes `createImage` throw `Not implemented` without
issuing any provider call. -/
theorem createImage_unsupported (oracle : ImageOracle) (model : String)
    (prompt : Option String) (h : model ≠ AI_MODEL.FLUX) :
    createImage oracle model prompt = ([], Except.error notImplementedMsg) := by
  simp [createImage, getStepsFromModel, h]

/-- For the FLUX model, `createImage` issues exactly one provider call with
steps 4, width 1024, height 1024 and count 1, whatever the prompt and
whatever the provider outcome. -/
theorem createImage_flux_calls (oracle : ImageOracle) (prompt : Option String) :
    (createImage oracle AI_MODEL.FLUX prompt).1 =
      [⟨AI_MODEL.FLUX, prompt, 1024, 1024, 1, 4⟩] := by
  rcases hc : oracle ⟨AI_MODEL.FLUX, prompt, 1024, 1024, 1, 4⟩ with msg | urls
  · simp [createImage, getStepsFromModel, IMAGE_CONFIG, hc]
  · rcases urls with _ | ⟨u, us⟩ <;> simp [createImage, getStepsFromModel, IMAGE_CONFIG, hc]

/-- Claim C1: a raw answer made of a well-formed `<think>...</think>` segment
(the inner segment contains no end tag) followed by trailing text is shaped
into the raw inner and trailing segments, and the reasoning-chat route replies
200 with the whitespace-trimmed inner content as `think` and the
whitespace-trimmed trailing content as `say`. -/
theorem C1_reasoning_shaping (inner post : String) (env : Option String)
    (h : ¬ occursIn endTag inner.data) :
    extractThink ("<think>" ++ inner ++ "</think>" ++ post) = some (inner, post) ∧
    (deepseekRoute env
        (fun _ => Except.ok ["<think>" ++ inner ++ "</think>" ++ post]) (some "q")).2 =
      ⟨200, RBody.thinkSay (jsTrim inner) (jsTrim post)⟩ := by
  have hnone : indexOfSub endTag inner.data = none := by
    rcases hcase : indexOfSub endTag inner.data with _ | j
    · rfl
    · exact absurd ⟨j, indexOfSub_eq_some _ _ _ hcase⟩ h
  have hdata : ("<think>" ++ inner ++ "</think>" ++ post).data
      = startTag ++ (inner.data ++ (endTag ++ post.data)) := by
    simp only [String.data_append, List.append_assoc, startTag, endTag]
  have h1 : indexOfSub startTag (("<think>" ++ inner ++ "</think>" ++ post).data) = some 0 := by
    rw [hdata]
    exact indexOfSub_self_append _ _ (by decide)
  have h2 : (("<think>" ++ inner ++ "</think>" ++ post).data).drop (0 + startTag.length)
      = inner.data ++ (endTag ++ post.data) := by
    rw [hdata, Nat.zero_add]
    exact List.drop_left _ _
  have h3 : indexOfSub endTag (inner.data ++ (endTag ++ post.data))
      = some inner.data.length := indexOfSub_boundary _ _ hnone
  have hext : extractThink ("<think>" ++ inner ++ "</think>" ++ post) = some (inner, post) := by
    simp only [extractThink, h1, Option.some_bind]
    rw [h2, h3]
    simp only [Option.map_some']
    rw [List.take_left, List.drop_append, List.drop_left]
  refine ⟨hext, ?_⟩
  have hq : promptFalsy (some "q") = false := rfl
  rcases hchat : chatWithModel env
      (fun _ => Except.ok ["<think>" ++ inner ++ "</think>" ++ post])
      AI_MODEL.DEEPSEEK (some "q") with ⟨calls, r⟩
  have hr : r = Except.ok ("<think>" ++ inner ++ "</think>" ++ post) := by
    have := chatWithModel_oracle_ok env AI_MODEL.DEEPSEEK (some "q")
      ("<think>" ++ inner ++ "</think>" ++ post) [] hq
    rw [hchat] at this
    exact this
  subst hr
  simp [deepseekRoute, hchat, hext]

/-- Witness for C1 at the spec's concrete example: input
`"<think> step one </think>  final answer "` yields
`{ think: "step one", say: "final answer" }`. -/
theorem C1_reasoning_shaping_witness :
    extractThink "<think> step one </think>  final answer "
        = some (" step one ", "  final answer ") ∧
    (deepseekRoute none
        (fun _ => Except.ok ["<think> step one </think>  final answer "]) (some "q")).2 =
      ⟨200, RBody.thinkSay "step one" "final answer"⟩ := by
  have h := C1_reasoning_shaping " step one " "  final answer " none (by
    intro hocc
    have hs := (indexOfSub_isSome_iff endTag " step one ".data).mpr hocc
    rw [show indexOfSub endTag " step one ".data = none from by decide] at hs
    simp at hs)
  have e1 : "<think>" ++ " step one " ++ "</think>" ++ "  final answer "
      = "<think> step one </think>  final answer " := by decide
  have e2 : jsTrim " step one " = "step one" := by decide
  have e3 : jsTrim "  final answer " = "final answer" := by decide
  rw [e1, e2, e3] at h
  exact h

/-- Claim C2 is false as stated: the pattern is unanchored.  In this text the
`<think>` segment does not occur at the beginning, yet a match is produced. -/
theorem C2_counterexample :
    (extractThink "x<think>a</think>b").isSome = true ∧
    startTag.isPrefixOf "x<think>a</think>b".data = false := by
  decide

/-- Claim C2 (amended): a match is produced exactly when the start tag occurs
somewhere in the text — not only at the beginning — with a matching end tag at
least the start tag's length later; the segment may span multiple lines since
every character is admitted, the inner match is non-greedy and the trailing
segment is of arbitrary length. -/
theorem C2_match_characterization (answer : String) :
    (extractThink answer).isSome = true ↔
      ∃ i j, occursAt startTag answer.data i ∧ occursAt endTag answer.data j ∧
        i + startTag.length ≤ j := by
  rcases h1 : indexOfSub startTag answer.data with _ | i0
  · simp only [extractThink, h1, Option.none_bind, Option.isSome_none]
    constructor
    · intro hf
      simp at hf
    · rintro ⟨i, j, hi, hj, hij⟩
      have hs := (indexOfSub_isSome_iff startTag answer.data).mpr ⟨i, hi⟩
      rw [h1] at hs
      simp at hs
  · simp only [extractThink, h1, Option.some_bind]
    rcases h2 : indexOfSub endTag (answer.data.drop (i0 + startTag.length)) with _ | j0
    · simp only [h2, Option.map_none', Option.isSome_none]
      constructor
      · intro hf
        simp at hf
      · rintro ⟨i, j, hi, hj, hij⟩
        have hmin := indexOfSub_min startTag answer.data i0 h1
        have hii : i0 ≤ i := by
          by_contra hlt
          have hfalse := hmin i (by omega)
          rw [hi] at hfalse
          cases hfalse
        have hocc : endTag.isPrefixOf
            ((answer.data.drop (i0 + startTag.length)).drop (j - (i0 + startTag.length)))
            = true := by
          rw [List.drop_drop]
          have harith : i0 + startTag.length + (j - (i0 + startTag.length)) = j := by
            omega
          rw [harith]
          exact hj
        have hs := (indexOfSub_isSome_iff endTag _).mpr ⟨_, hocc⟩
        rw [h2] at hs
        simp at hs
    · simp only [h2, Option.map_some', Option.isSome_some, true_iff]
      refine ⟨i0, i0 + startTag.length + j0, indexOfSub_eq_some _ _ _ h1, ?_, by omega⟩
      have hpre := indexOfSub_eq_some _ _ _ h2
      rw [List.drop_drop] at hpre
      exact hpre

/-- Claim C4: a raw answer containing no `<think>` tag at all does not match,
and the reasoning-chat route replies with the 400 format-mismatch error rather
than crashing or leaving the call unanswered. -/
theorem C4_no_think_tag (answer : String) (h : ¬ occursIn startTag answer.data) :
    extractThink answer = none ∧
    ∀ (env : Option String) (prompt : Option String), promptFalsy prompt = false →
      (deepseekRoute env (fun _ => Except.ok [answer]) prompt).2 =
        ⟨400, RBody.error formatErrorMsg⟩ := by
  have hnone : indexOfSub startTag answer.data = none := by
    rcases hcase : indexOfSub startTag answer.data with _ | j
    · rfl
    · exact absurd ⟨j, indexOfSub_eq_some _ _ _ hcase⟩ h
  have hext : extractThink answer = none := by
    simp [extractThink, hnone]
  refine ⟨hext, ?_⟩
  intro env prompt hp
  rcases hchat : chatWithModel env (fun _ => Except.ok [answer]) AI_MODEL.DEEPSEEK prompt
    with ⟨calls, r⟩
  have hr : r = Except.ok answer := by
    have hok := chatWithModel_oracle_ok env AI_MODEL.DEEPSEEK prompt answer [] hp
    rw [hchat] at hok
    exact hok
  subst hr
  simp [deepseekRoute, hchat, hext]

/-- Witness for C4 at the concrete answer `"hello"`. -/
theorem C4_no_think_tag_witness :
    extractThink "hello" = none ∧
    (deepseekRoute none (fun _ => Except.ok ["hello"]) (some "q")).2 =
      ⟨400, RBody.error formatErrorMsg⟩ := by
  have h := C4_no_think_tag "hello" (by
    intro hocc
    have hs := (indexOfSub_isSome_iff startTag "hello".data).mpr hocc
    rw [show indexOfSub startTag "hello".data = none from by decide] at hs
    simp at hs)
  exact ⟨h.1, h.2 none (some "q") rfl⟩

/-- Claim C5: for both chat operations, an empty-string or missing prompt
fails with the invalid-prompt error before any remote provider call is
attempted — the list of issued calls is empty. -/
theorem C5_empty_prompt (env : Option String) (oracle : ChatOracle)
    (prompt : Option String) (h : prompt = none ∨ prompt = some "") :
    (∀ model, chatWithModel env oracle model prompt = ([], Except.error invalidPromptMsg)) ∧
    llamaRoute env oracle prompt = ([], ⟨500, RBody.error invalidPromptMsg⟩) ∧
    deepseekRoute env oracle prompt = ([], ⟨500, RBody.error invalidPromptMsg⟩) := by
  have hp : promptFalsy prompt = true := by
    rcases h with rfl | rfl <;> rfl
  refine ⟨fun model => chatWithModel_falsy env oracle model prompt hp, ?_, ?_⟩
  · simp [llamaRoute, chatWithModel_falsy env oracle AI_MODEL.LLAMA prompt hp]
  · simp [deepseekRoute, chatWithModel_falsy env oracle AI_MODEL.DEEPSEEK prompt hp]

/-- Witness for C5 at the empty-string prompt. -/
theorem C5_empty_prompt_witness :
    chatWithModel none (fun _ => Except.ok ["x"]) AI_MODEL.LLAMA (some "")
      = ([], Except.error invalidPromptMsg) :=
  (C5_empty_prompt none (fun _ => Except.ok ["x"]) (some "") (Or.inr rfl)).1 AI_MODEL.LLAMA

/-- Claim C6: an image-generation request for any model without a defined step
count (any model other than FLUX) fails with `Not implemented` before any
remote provider call is attempted — the list of issued calls is empty. -/
theorem C6_unsupported_model (oracle : ImageOracle) (model : String)
    (prompt : Option String) (h : model ≠ AI_MODEL.FLUX) :
    createImage oracle model prompt = ([], Except.error notImplementedMsg) :=
  createImage_unsupported oracle model prompt h

/-- Witness for C6 at the commented-out Stable Diffusion model. -/
theorem C6_unsupported_model_witness :
    createImage (fun _ => Except.ok ["u"])
        "stabilityai/stable-diffusion-xl-base-1.0" (some "p")
      = ([], Except.error notImplementedMsg) :=
  C6_unsupported_model (fun _ => Except.ok ["u"])
    "stabilityai/stable-diffusion-xl-base-1.0" (some "p") (by decide)

/-- Claim C7: for every prompt, image generation with the FLUX model issues
exactly one provider request, with steps 4, width 1024, height 1024 and
count 1, independent of the prompt's content and of the provider's outcome. -/
theorem C7_flux_parameters (oracle : ImageOracle) (prompt : Option String) :
    (createImage oracle AI_MODEL.FLUX prompt).1 =
      [⟨AI_MODEL.FLUX, prompt, 1024, 1024, 1, 4⟩] ∧
    (fluxRoute oracle prompt).1 = [⟨AI_MODEL.FLUX, prompt, 1024, 1024, 1, 4⟩] := by
  refine ⟨createImage_flux_calls oracle prompt, ?_⟩
  rcases hc : createImage oracle AI_MODEL.FLUX prompt with ⟨calls, r⟩
  have h1 := createImage_flux_calls oracle prompt
  rw [hc] at h1
  rcases r with m | u <;> simp [fluxRoute, hc, h1]

/-- Claim C8: for every non-empty prompt, each chat operation issues exactly
one provider request carrying the two-message conversation — the configured
system message, then the user prompt — together with the guard model as the
safety-filter moderation parameter. -/
theorem C8_chat_request_shape (env : Option String) (oracle : ChatOracle)
    (s : String) (h : s ≠ "") :
    (chatWithModel env oracle AI_MODEL.LLAMA (some s)).1 =
      [⟨AI_MODEL.LLAMA, AI_MODEL.GUARD,
        [⟨"system", CHAT_SYSTEM_MESSAGE env⟩, ⟨"user", s⟩]⟩] ∧
    (chatWithModel env oracle AI_MODEL.DEEPSEEK (some s)).1 =
      [⟨AI_MODEL.DEEPSEEK, AI_MODEL.GUARD,
        [⟨"system", CHAT_SYSTEM_MESSAGE env⟩, ⟨"user", s⟩]⟩] := by
  have hp : promptFalsy (some s) = false := by
    have hne : ¬ s.isEmpty = true := fun he => h ((String.isEmpty_iff s).mp he)
    simpa [promptFalsy] using Bool.eq_false_iff.mpr hne
  constructor
  · simpa using chatWithModel_calls env oracle AI_MODEL.LLAMA (some s) hp
  · simpa using chatWithModel_calls env oracle AI_MODEL.DEEPSEEK (some s) hp

/-- Witness for C8 at the prompt `"hi"`. -/
theorem C8_chat_request_shape_witness :
    (chatWithModel none (fun _ => Except.ok ["a"]) AI_MODEL.LLAMA (some "hi")).1 =
      [⟨AI_MODEL.LLAMA, AI_MODEL.GUARD,
        [⟨"system", CHAT_SYSTEM_MESSAGE none⟩, ⟨"user", "hi"⟩]⟩] :=
  (C8_chat_request_shape none (fun _ => Except.ok ["a"]) "hi" (by decide)).1

/-- Claim C9: image generation performs no local prompt validation — for a
missing or an empty prompt the provider call is still attempted, carrying
exactly that prompt, and a successful provider outcome still yields a success
reply (never the invalid-prompt failure of the chat operations). -/
theorem C9_image_no_prompt_validation (oracle : ImageOracle) :
    (fluxRoute oracle none).1 = [⟨AI_MODEL.FLUX, none, 1024, 1024, 1, 4⟩] ∧
    (fluxRoute oracle (some "")).1 = [⟨AI_MODEL.FLUX, some "", 1024, 1024, 1, 4⟩] ∧
    ∀ (u : String) (us : List String) (prompt : Option String),
      fluxRoute (fun _ => Except.ok (u :: us)) prompt =
        ([⟨AI_MODEL.FLUX, prompt, 1024, 1024, 1, 4⟩], ⟨200, RBody.result u⟩) := by
  have hcalls : ∀ p, (fluxRoute oracle p).1 = [⟨AI_MODEL.FLUX, p, 1024, 1024, 1, 4⟩] := by
    intro p
    rcases hc : createImage oracle AI_MODEL.FLUX p with ⟨calls, r⟩
    have h1 := createImage_flux_calls oracle p
    rw [hc] at h1
    rcases r with m | u <;> simp [fluxRoute, hc, h1]
  refine ⟨hcalls none, hcalls (some ""), ?_⟩
  intro u us prompt
  simp [fluxRoute, createImage, getStepsFromModel, IMAGE_CONFIG]

/-- Claim C10: the image route passes the underlying fault's message through
to the caller verbatim — in general for any failure of `createImage`, and in
particular for a provider error and for the empty-result TypeError — whereas a
chat operation's upstream failure is replaced by the fixed generic message
before reaching the caller, whatever the underlying message was. -/
theorem C10_error_message_policy :
    (∀ (oracle : ImageOracle) (prompt : Option String) (e : String),
      (createImage oracle AI_MODEL.FLUX prompt).2 = Except.error e →
        (fluxRoute oracle prompt).2 = ⟨500, RBody.error e⟩) ∧
    (∀ (prompt : Option String) (msg : String),
      (fluxRoute (fun _ => Except.error msg) prompt).2 = ⟨500, RBody.error msg⟩) ∧
    (∀ (prompt : Option String),
      (fluxRoute (fun _ => Except.ok []) prompt).2 =
        ⟨500, RBody.error emptyImageDataMsg⟩) ∧
    (∀ (env : Option String) (model : String) (prompt : Option String) (msg : String),
      promptFalsy prompt = false →
        (chatWithModel env (fun _ => Except.error msg) model prompt).2 =
          Except.error chatErrorMsg) := by
  refine ⟨?_, ?_, ?_, ?_⟩
  · intro oracle prompt e he
    rcases hc : createImage oracle AI_MODEL.FLUX prompt with ⟨calls, r⟩
    rw [hc] at he
    simp only at he
    subst he
    simp [fluxRoute, hc]
  · intro prompt msg
    simp [fluxRoute, createImage, getStepsFromModel, IMAGE_CONFIG]
  · intro prompt
    simp [fluxRoute, createImage, getStepsFromModel, IMAGE_CONFIG]
  · intro env model prompt msg hp
    exact chatWithModel_oracle_err env model prompt msg hp

/-- Witness for C10: a provider fault message passes through the image route
verbatim, while the same fault message is replaced for a chat operation. -/
theorem C10_error_message_policy_witness :
    (fluxRoute (fun _ => Except.error "boom") none).2 = ⟨500, RBody.error "boom"⟩ ∧
    (chatWithModel none (fun _ => Except.error "boom") AI_MODEL.LLAMA (some "q")).2 =
      Except.error chatErrorMsg :=
  ⟨C10_error_message_policy.1 (fun _ => Except.error "boom") none "boom" rfl,
   C10_error_message_policy.2.2.2 none AI_MODEL.LLAMA (some "q") "boom" rfl⟩

/-- Claim C3 is false as stated: a missing prompt is an invalid-request
failure, yet the reply's status is 500 — the server-error class, not the
client-error class the claim requires for request problems. -/
theorem C3_counterexample :
    (llamaRoute none (fun _ => Except.ok ["x"]) none).2 =
      ⟨500, RBody.error invalidPromptMsg⟩ ∧
    ¬ clientErrorClass (llamaRoute none (fun _ => Except.ok ["x"]) none).2.status := by
  decide

/-- Claim C3 (amended): every failure of the three router operations becomes a
structured error reply; the reasoning-chat format mismatch is reported with
client-error status 400, and every other failure — upstream provider failures
but also missing/empty-prompt invalid requests — with server-error status
500. -/
theorem C3_error_status_policy (env : Option String) (co : ChatOracle)
    (io : ImageOracle) (prompt : Option String) (m : String) :
    ((llamaRoute env co prompt).2.body = RBody.error m →
      (llamaRoute env co prompt).2.status = 500) ∧
    ((fluxRoute io prompt).2.body = RBody.error m →
      (fluxRoute io prompt).2.status = 500) ∧
    ((deepseekRoute env co prompt).2.body = RBody.error m →
      (deepseekRoute env co prompt).2.status = 500 ∨
        ((deepseekRoute env co prompt).2.status = 400 ∧ m = formatErrorMsg)) := by
  refine ⟨?_, ?_, ?_⟩
  · rcases hc : chatWithModel env co AI_MODEL.LLAMA prompt with ⟨calls, r⟩
    rcases r with msg | a <;> simp [llamaRoute, hc]
  · rcases hc : createImage io AI_MODEL.FLUX prompt with ⟨calls, r⟩
    rcases r with msg | u <;> simp [fluxRoute, hc]
  · rcases hc : chatWithModel env co AI_MODEL.DEEPSEEK prompt with ⟨calls, r⟩
    rcases r with msg | a
    · simp [deepseekRoute, hc]
    · rcases he : extractThink a with _ | ⟨t, s⟩
      · simp only [deepseekRoute, hc, he]
        intro hbody
        injection hbody with hm
        exact Or.inr ⟨by trivial, hm.symm⟩
      · simp [deepseekRoute, hc, he]

/-- Witness for C3 (amended): an upstream chat failure is replied with
status 500. -/
theorem C3_error_status_policy_witness :
    (llamaRoute none (fun _ => Except.error "x") (some "q")).2.status = 500 :=
  (C3_error_status_policy none (fun _ => Except.error "x")
    (fun _ => Except.ok ["u"]) (some "q") chatErrorMsg).1 rfl
